import Mathlib

/-!
Verification of the water-simulation renderer (`water-simulation.py`) against
its natural-language specification.

The embedding works over `ℚ`.  The square-root function (GLSL `sqrt`,
`np.sqrt`) and the exponential (`exp`) are not rational, so they are modelled
as explicit function parameters `sq, ex : ℚ → ℚ`; theorems that depend on the
meaning of the square root constrain `sq` by `(sq x) ^ 2 = x` and `0 ≤ sq x`
(or `0 < sq x`) at exactly the values where the code calls it.
-/

/-- A 3-component vector of rationals, as GLSL `vec3` / a numpy row of 3. -/
structure Vec3 where
  x : ℚ
  y : ℚ
  z : ℚ
deriving DecidableEq, Repr

/-- A 4-component vector of rationals, as GLSL `vec4`. -/
structure Vec4 where
  x : ℚ
  y : ℚ
  z : ℚ
  w : ℚ
deriving DecidableEq, Repr

/-- A 4x4 matrix of rationals stored by rows, as GLSL `mat4`. -/
structure Mat4 where
  r0 : Vec4
  r1 : Vec4
  r2 : Vec4
  r3 : Vec4
deriving DecidableEq, Repr

def Vec3.add (a b : Vec3) : Vec3 := ⟨a.x + b.x, a.y + b.y, a.z + b.z⟩

def Vec3.sub (a b : Vec3) : Vec3 := ⟨a.x - b.x, a.y - b.y, a.z - b.z⟩

def Vec3.neg (a : Vec3) : Vec3 := ⟨-a.x, -a.y, -a.z⟩

def Vec3.smul (c : ℚ) (a : Vec3) : Vec3 := ⟨c * a.x, c * a.y, c * a.z⟩

/-- Componentwise product, as GLSL `vec3 * vec3`. -/
def Vec3.hadamard (a b : Vec3) : Vec3 := ⟨a.x * b.x, a.y * b.y, a.z * b.z⟩

def Vec3.dot (a b : Vec3) : ℚ := a.x * b.x + a.y * b.y + a.z * b.z

def Vec3.cross (a b : Vec3) : Vec3 :=
  ⟨a.y * b.z - a.z * b.y, a.z * b.x - a.x * b.z, a.x * b.y - a.y * b.x⟩

def Vec4.dot (a b : Vec4) : ℚ := a.x * b.x + a.y * b.y + a.z * b.z + a.w * b.w

/-- Matrix-vector product `M * v` (GLSL semantics). -/
def Mat4.mulVec (m : Mat4) (v : Vec4) : Vec4 :=
  ⟨Vec4.dot m.r0 v, Vec4.dot m.r1 v, Vec4.dot m.r2 v, Vec4.dot m.r3 v⟩

def Mat4.transpose (m : Mat4) : Mat4 :=
  ⟨⟨m.r0.x, m.r1.x, m.r2.x, m.r3.x⟩,
   ⟨m.r0.y, m.r1.y, m.r2.y, m.r3.y⟩,
   ⟨m.r0.z, m.r1.z, m.r2.z, m.r3.z⟩,
   ⟨m.r0.w, m.r1.w, m.r2.w, m.r3.w⟩⟩

def mat4Id : Mat4 :=
  ⟨⟨1, 0, 0, 0⟩, ⟨0, 1, 0, 0⟩, ⟨0, 0, 1, 0⟩, ⟨0, 0, 0, 1⟩⟩

/-- GLSL `normalize(v) = v / length(v)` and python
`vec / np.sqrt(np.sum(vec * vec))`, with the square root supplied as the
oracle `sq` applied to the squared length. -/
def normalize3 (sq : ℚ → ℚ) (v : Vec3) : Vec3 :=
  Vec3.smul (1 / sq (Vec3.dot v v)) v

/-- The uniforms consumed by the vertex shader. -/
structure Uniforms where
  u_eye_height : ℚ
  u_world_view : Mat4
  u_alpha : ℚ
  u_bed_depth : ℚ
deriving Repr

/-- The per-vertex attributes of the vertex shader. -/
structure VertexIn where
  a_position : ℚ × ℚ
  a_start_position : ℚ × ℚ
  a_height : ℚ
  a_bed_depth : ℚ
  a_normal : ℚ × ℚ
deriving DecidableEq, Repr

/-- The varyings and clip position produced by the vertex shader. -/
structure VertexOut where
  gl_Position : Vec4
  v_normal : Vec3
  v_position : Vec3
  v_reflected : Vec3
  v_sky_texcoord : ℚ × ℚ
  v_bed_texcoord : ℚ × ℚ
  v_reflectance : ℚ
  v_mask : Vec3
  bed_upper_water : ℚ
deriving DecidableEq, Repr

/-- Line 34: `float total_depth = -a_bed_depth - u_bed_depth;`. -/
def totalDepth (u : Uniforms) (a : VertexIn) : ℚ :=
  -a.a_bed_depth - u.u_bed_depth

/-- Line 36: `position_view = u_world_view * vec4(v_position, 1)`. -/
def positionView (u : Uniforms) (a : VertexIn) : Vec4 :=
  Mat4.mulVec u.u_world_view ⟨a.a_position.1, a.a_position.2, a.a_height, 1⟩

/-- Line 37: `z = 1 - (1 + position_view.z) / (1 + u_eye_height)`. -/
def zOf (u : Uniforms) (a : VertexIn) : ℚ :=
  1 - (1 + (positionView u a).z) / (1 + u.u_eye_height)

/-- Line 40: `depth_position_view = u_world_view * vec4(a_start_position.xy, total_depth, 1)`. -/
def depthPositionView (u : Uniforms) (a : VertexIn) : Vec4 :=
  Mat4.mulVec u.u_world_view
    ⟨a.a_start_position.1, a.a_start_position.2, totalDepth u a, 1⟩

/-- Line 41: `z_depth = 1 - (1 + depth_position_view.z) / (1 + u_eye_height)`. -/
def zDepthOf (u : Uniforms) (a : VertexIn) : ℚ :=
  1 - (1 + (depthPositionView u a).z) / (1 + u.u_eye_height)

/-- Line 51: `d = 1 - u_alpha * u_alpha * dot(cr, cr)` with
`cr = cross(normal, from_eye)` (line 50). -/
def discriminant (normal from_eye : Vec3) (alpha : ℚ) : ℚ :=
  1 - alpha * alpha * Vec3.dot (Vec3.cross normal from_eye) (Vec3.cross normal from_eye)

/-- Line 52: `c2 = sqrt(d)`.  The argument handed to the square root is the
raw discriminant: the shader has no branch and no clamping here. -/
def c2Of (sq : ℚ → ℚ) (normal from_eye : Vec3) (alpha : ℚ) : ℚ :=
  sq (discriminant normal from_eye alpha)

/-- Lines 67-69: the polarization-averaged Fresnel reflectance from the
incidence cosine `c1`, the refraction cosine `c2` and the ratio `alpha`. -/
def fresnelReflectance (alpha c1 c2 : ℚ) : ℚ :=
  (((alpha * c1 - c2) / (alpha * c1 + c2)) ^ 2
    + ((alpha * c2 - c1) / (alpha * c2 + c1)) ^ 2) / 2

/-- The vertex shader `main` (lines 30-74), with square root and exponential
supplied as oracles `sq` and `ex`. -/
def vertexStage (sq ex : ℚ → ℚ) (u : Uniforms) (a : VertexIn) : VertexOut :=
  let v_normal := normalize3 sq ⟨a.a_normal.1, a.a_normal.2, -1⟩
  let v_position : Vec3 := ⟨a.a_position.1, a.a_position.2, a.a_height⟩
  let total_depth := totalDepth u a
  let position_view := positionView u a
  let z := zOf u a
  let glPos0 : Vec4 := ⟨position_view.x, position_view.y, -position_view.z * z, z⟩
  let depth_position_view := depthPositionView u a
  let z_depth := zDepthOf u a
  let eye_view : Vec4 := ⟨0, 0, u.u_eye_height, 1⟩
  let eye := Mat4.mulVec (Mat4.transpose u.u_world_view) eye_view
  let from_eye := normalize3 sq (Vec3.sub v_position ⟨eye.x, eye.y, eye.z⟩)
  let normal := normalize3 sq (Vec3.neg v_normal)
  let v_reflected := normalize3 sq
    (Vec3.sub from_eye (Vec3.smul (2 * Vec3.dot normal from_eye) normal))
  let v_sky_texcoord : ℚ × ℚ :=
    (1 / 20 * v_reflected.x / v_reflected.z + 1 / 2,
     1 / 20 * v_reflected.y / v_reflected.z + 1 / 2)
  let cr := Vec3.cross normal from_eye
  let c2 := c2Of sq normal from_eye u.u_alpha
  let refracted := normalize3 sq
    (Vec3.sub (Vec3.smul u.u_alpha (Vec3.cross cr normal)) (Vec3.smul c2 normal))
  let c1 := -Vec3.dot normal from_eye
  let t := (total_depth - v_position.z) / refracted.z
  let point_on_bed0 := Vec3.add v_position (Vec3.smul t refracted)
  let point_on_bed := if total_depth > a.a_height then v_position else point_on_bed0
  let glPos :=
    if total_depth > a.a_height then
      (⟨depth_position_view.x, depth_position_view.y,
        -position_view.z * z_depth, z_depth⟩ : Vec4)
    else glPos0
  let bed_upper_water : ℚ := if total_depth > a.a_height then 1 else 0
  let v_bed_texcoord : ℚ × ℚ := (point_on_bed.x + 1 / 2, point_on_bed.y + 1 / 2)
  let v_reflectance := fresnelReflectance u.u_alpha c1 c2
  let diw := sq (Vec3.dot (Vec3.sub point_on_bed v_position) (Vec3.sub point_on_bed v_position))
  let v_mask : Vec3 := ⟨ex (-diw * 1), ex (-diw * (1 / 2)), ex (-diw * (1 / 5))⟩
  ⟨glPos, v_normal, v_position, v_reflected, v_sky_texcoord, v_bed_texcoord,
   v_reflectance, v_mask, bed_upper_water⟩

/-- The uniforms, textures and varyings consumed by the triangle fragment
shader.  Textures are modelled as functions from texture coordinates to
colors. -/
structure FragIn where
  u_sky_texture : ℚ × ℚ → Vec3
  u_bed_texture : ℚ × ℚ → Vec3
  u_sun_direction : Vec3
  u_sun_diffused_color : Vec3
  u_sun_reflected_color : Vec3
  u_reflected_mult : ℚ
  u_diffused_mult : ℚ
  u_bed_mult : ℚ
  u_depth_mult : ℚ
  u_sky_mult : ℚ
  v_normal : Vec3
  v_position : Vec3
  v_reflected : Vec3
  v_sky_texcoord : ℚ × ℚ
  v_bed_texcoord : ℚ × ℚ
  v_reflectance : ℚ
  v_mask : Vec3
  bed_upper_water : ℚ

/-- The triangle fragment shader `main` (lines 100-120). -/
def fragmentStage (sq : ℚ → ℚ) (f : FragIn) : Vec3 :=
  let sky_color := f.u_sky_texture f.v_sky_texcoord
  let bed_color := f.u_bed_texture f.v_bed_texcoord
  let normal := normalize3 sq f.v_normal
  let diffused_intensity := f.u_diffused_mult * max 0 (-Vec3.dot normal f.u_sun_direction)
  let cosphi := max 0 (Vec3.dot f.u_sun_direction (normalize3 sq f.v_reflected))
  let reflected_intensity := f.u_reflected_mult * cosphi ^ 20
  let ambient_water : Vec3 := ⟨0, 3 / 10, 1 / 2⟩
  let image_color :=
    Vec3.add (Vec3.smul f.u_bed_mult (Vec3.hadamard bed_color f.v_mask))
      (Vec3.smul f.u_depth_mult
        (Vec3.hadamard ambient_water ⟨1 - f.v_mask.x, 1 - f.v_mask.y, 1 - f.v_mask.z⟩))
  let rgb :=
    Vec3.add
      (Vec3.add
        (Vec3.add (Vec3.smul (f.u_sky_mult * f.v_reflectance) sky_color)
          (Vec3.smul (1 - f.v_reflectance) image_color))
        (Vec3.smul diffused_intensity f.u_sun_diffused_color))
      (Vec3.smul reflected_intensity f.u_sun_reflected_color)
  if f.bed_upper_water > 1 / 2 then bed_color else rgb

/-- Modelled from the spec: the WaveSource contract of section 4.1 (the
concrete variants live in `surface.py`, which is not part of the sources).
A source has a spawn center, a mutable elapsed-time clock, and its
height/gradient field and liveness are pure functions of the elapsed time. -/
structure WaveSource where
  center : ℚ × ℚ
  elapsed : ℚ
  heightLaw : ℚ → ℕ → ℚ
  gradLaw : ℚ → ℕ → ℚ × ℚ
  deadLaw : ℚ → Bool

/-- The source's `height_and_normal()`: per-lattice-point height and
gradient at the current elapsed time. -/
def WaveSource.heightAndNormal (sf : WaveSource) : (ℕ → ℚ) × (ℕ → ℚ × ℚ) :=
  (sf.heightLaw sf.elapsed, sf.gradLaw sf.elapsed)

/-- The source's `propagate(dt)`: advance the internal clock. -/
def WaveSource.propagate (sf : WaveSource) (dt : ℚ) : WaveSource :=
  { sf with elapsed := sf.elapsed + dt }

/-- The source's `is_dead()`. -/
def WaveSource.is_dead (sf : WaveSource) : Bool :=
  sf.deadLaw sf.elapsed

/-- Modelled from the spec: the SurfaceField contract of section 4.2
(`surface.py` is not part of the sources).  The background field, always
alive. -/
structure SurfaceField where
  elapsed : ℚ
  heightLaw : ℚ → ℕ → ℚ
  gradLaw : ℚ → ℕ → ℚ × ℚ

def SurfaceField.heightAndNormal (s : SurfaceField) : (ℕ → ℚ) × (ℕ → ℚ × ℚ) :=
  (s.heightLaw s.elapsed, s.gradLaw s.elapsed)

def SurfaceField.propagate (s : SurfaceField) (dt : ℚ) : SurfaceField :=
  { s with elapsed := s.elapsed + dt }

/-- The aggregation-relevant state of `Canvas`: the background surface, the
optional pluggable wave-source class (`self.surface_class`), the stored
wave-source list (`self.surface_wave_list`), and the drawable size
(`self.physical_size`). -/
structure CanvasState where
  surface : SurfaceField
  surfaceClass : Option (ℚ × ℚ → WaveSource)
  waveList : List WaveSource
  physicalSize : ℚ × ℚ

/-- `Canvas.add_wave_center` (lines 227-233): no-op when no wave class is
configured; otherwise map the screen center to normalized surface
coordinates, sweep out the dead sources, and append one new source. -/
def CanvasState.addWaveCenter (st : CanvasState) (center : ℚ × ℚ) : CanvasState :=
  match st.surfaceClass with
  | none => st
  | some cls =>
    let posX := 3 / 2 * (center.1 - st.physicalSize.1 / 2) / st.physicalSize.1
    let posY := 3 / 2 * (-(center.2 - st.physicalSize.2 / 2) / st.physicalSize.2)
    { st with waveList :=
        (st.waveList.filter fun sf => !sf.is_dead) ++ [cls (posX, posY)] }

/-- One iteration of the accumulation loop in `Canvas.get_hieght_and_normal`
(lines 239-249): add the source's height and gradient into the running
`Option`-valued totals and bump `sf_len`.  In the code the two totals are
initialized to `None` and become set together on the first iteration. -/
def aggStep (acc : Option (ℕ → ℚ) × Option (ℕ → ℚ × ℚ) × ℕ) (sf : WaveSource) :
    Option (ℕ → ℚ) × Option (ℕ → ℚ × ℚ) × ℕ :=
  let hn := sf.heightAndNormal
  let ht : Option (ℕ → ℚ) :=
    match acc.1 with
    | none => some hn.1
    | some h => some fun i => h i + hn.1 i
  let gt : Option (ℕ → ℚ × ℚ) :=
    match acc.2.1 with
    | none => some hn.2
    | some g => some fun i => ((g i).1 + (hn.2 i).1, (g i).2 + (hn.2 i).2)
  (ht, gt, acc.2.2 + 1)

/-- `Canvas.get_hieght_and_normal` (lines 235-255): fold the stored wave
sources into running totals; if no totals were accumulated fall back to the
background surface, else divide by the count.  (The gradient total is `some`
exactly when the height total is, so the default in the `getD` is never
read.) -/
def CanvasState.getHieghtAndNormal (st : CanvasState) : (ℕ → ℚ) × (ℕ → ℚ × ℚ) :=
  let acc := st.waveList.foldl aggStep (none, none, 0)
  match acc.1 with
  | none => st.surface.heightAndNormal
  | some h =>
    let g := acc.2.1.getD fun _ => (0, 0)
    (fun i => h i / (acc.2.2 : ℚ),
     fun i => ((g i).1 / (acc.2.2 : ℚ), (g i).2 / (acc.2.2 : ℚ)))

/-- `Canvas.on_timer` (lines 271-275): propagate the background surface and
every stored wave source by `dt = 0.01`. -/
def CanvasState.onTimer (st : CanvasState) : CanvasState :=
  { st with
    surface := st.surface.propagate (1 / 100),
    waveList := st.waveList.map fun sf => sf.propagate (1 / 100) }

/-- The camera state of `Canvas`: the forward vector `self.camera` and the
up vector `self.up`. -/
structure CamState where
  camera : Vec3
  up : Vec3
deriving DecidableEq, Repr

/-- Line 212: `new_camera = self.camera - right * shift[0] + self.up * shift[1]`
with `right = cross(self.up, self.camera)` (line 211). -/
def newCameraVec (st : CamState) (shift : ℚ × ℚ) : Vec3 :=
  Vec3.add (Vec3.sub st.camera (Vec3.smul shift.1 (Vec3.cross st.up st.camera)))
    (Vec3.smul shift.2 st.up)

/-- Line 213: `new_up = self.up - self.camera * shift[0]`. -/
def newUpVec (st : CamState) (shift : ℚ × ℚ) : Vec3 :=
  Vec3.sub st.up (Vec3.smul shift.1 st.camera)

/-- `Canvas.rotate_camera` (lines 210-216), with the square root of the
python `normalize` supplied as the oracle `sq`. -/
def rotateCamera (sq : ℚ → ℚ) (st : CamState) (shift : ℚ × ℚ) : CamState :=
  let camera := normalize3 sq (newCameraVec st shift)
  let up := normalize3 sq (newUpVec st shift)
  ⟨camera, Vec3.cross camera (Vec3.cross up camera)⟩

/-- The scalar triple product of a cross product with one of its factors
vanishes. -/
lemma dot_cross_left (a b : Vec3) : Vec3.dot (Vec3.cross a b) a = 0 := by
  simp only [Vec3.dot, Vec3.cross]
  ring

/-- Commutativity of the dot product. -/
lemma dot_comm (a b : Vec3) : Vec3.dot a b = Vec3.dot b a := by
  simp only [Vec3.dot]
  ring

/-- Squared length of the double cross product `c x (u x c)`. -/
lemma normSq_double_cross (c u : Vec3) :
    Vec3.dot (Vec3.cross c (Vec3.cross u c)) (Vec3.cross c (Vec3.cross u c))
      = (Vec3.dot c c) ^ 2 * Vec3.dot u u - Vec3.dot c c * (Vec3.dot c u) ^ 2 := by
  simp only [Vec3.dot, Vec3.cross]
  ring

/-- Lagrange identity for the cross product. -/
lemma lagrange_cross (a b : Vec3) :
    Vec3.dot (Vec3.cross a b) (Vec3.cross a b) + (Vec3.dot a b) ^ 2
      = Vec3.dot a a * Vec3.dot b b := by
  simp only [Vec3.dot, Vec3.cross]
  ring

/-- If `sq` returns a genuine positive square root of the squared length,
then `normalize3` produces a unit vector. -/
lemma normalize3_normSq (sq : ℚ → ℚ) (v : Vec3)
    (h : (sq (Vec3.dot v v)) ^ 2 = Vec3.dot v v)
    (hp : 0 < sq (Vec3.dot v v)) :
    Vec3.dot (normalize3 sq v) (normalize3 sq v) = 1 := by
  have ha : sq (Vec3.dot v v) ≠ 0 := ne_of_gt hp
  simp only [normalize3, Vec3.smul, Vec3.dot] at *
  field_simp
  linear_combination -h

/-- C4 (amended): after a `rotate_camera` call in exact arithmetic (the two
square roots being exact and positive), the new forward vector is unit, the
new up vector is exactly orthogonal to it, and the new up vector has squared
length `1 - (dot u1 c)^2 ≤ 1` where `u1` and `c` are the renormalized up and
forward vectors - so the final cross-product step guarantees exact
orthogonality but not unit length of `up`. -/
theorem rotateCamera_orthogonality (sq : ℚ → ℚ) (st : CamState) (shift : ℚ × ℚ)
    (hsc : (sq (Vec3.dot (newCameraVec st shift) (newCameraVec st shift))) ^ 2
            = Vec3.dot (newCameraVec st shift) (newCameraVec st shift))
    (hpc : 0 < sq (Vec3.dot (newCameraVec st shift) (newCameraVec st shift)))
    (hsu : (sq (Vec3.dot (newUpVec st shift) (newUpVec st shift))) ^ 2
            = Vec3.dot (newUpVec st shift) (newUpVec st shift))
    (hpu : 0 < sq (Vec3.dot (newUpVec st shift) (newUpVec st shift))) :
    Vec3.dot (rotateCamera sq st shift).camera (rotateCamera sq st shift).camera = 1 ∧
    Vec3.dot (rotateCamera sq st shift).up (rotateCamera sq st shift).camera = 0 ∧
    Vec3.dot (rotateCamera sq st shift).up (rotateCamera sq st shift).up
      = 1 - (Vec3.dot (normalize3 sq (newUpVec st shift))
               (normalize3 sq (newCameraVec st shift))) ^ 2 ∧
    Vec3.dot (rotateCamera sq st shift).up (rotateCamera sq st shift).up ≤ 1 := by
  have hc : Vec3.dot (normalize3 sq (newCameraVec st shift))
      (normalize3 sq (newCameraVec st shift)) = 1 := normalize3_normSq _ _ hsc hpc
  have hu : Vec3.dot (normalize3 sq (newUpVec st shift))
      (normalize3 sq (newUpVec st shift)) = 1 := normalize3_normSq _ _ hsu hpu
  have hrot : rotateCamera sq st shift =
      ⟨normalize3 sq (newCameraVec st shift),
       Vec3.cross (normalize3 sq (newCameraVec st shift))
         (Vec3.cross (normalize3 sq (newUpVec st shift))
           (normalize3 sq (newCameraVec st shift)))⟩ := rfl
  rw [hrot]
  refine ⟨hc, dot_cross_left _ _, ?_, ?_⟩
  · rw [normSq_double_cross, hc, hu,
      dot_comm (normalize3 sq (newCameraVec st shift)) (normalize3 sq (newUpVec st shift))]
    ring
  · rw [normSq_double_cross, hc, hu]
    nlinarith [sq_nonneg (Vec3.dot (normalize3 sq (newCameraVec st shift))
      (normalize3 sq (newUpVec st shift)))]

/-- The initial camera basis of the `Canvas` (lines 176-177). -/
def camStart : CamState := ⟨⟨0, 0, 1⟩, ⟨0, 1, 0⟩⟩

/-- A square-root oracle exact at the one squared length `25/16` that the
counterexample run of `rotate_camera` evaluates it on (both renormalized
vectors there have squared length `25/16`). -/
def sqW : ℚ → ℚ := fun _ => 5 / 4

theorem rotateCamera_orthogonality_witness :
    Vec3.dot (rotateCamera sqW camStart (3/4, 0)).camera
      (rotateCamera sqW camStart (3/4, 0)).camera = 1 ∧
    Vec3.dot (rotateCamera sqW camStart (3/4, 0)).up
      (rotateCamera sqW camStart (3/4, 0)).camera = 0 ∧
    Vec3.dot (rotateCamera sqW camStart (3/4, 0)).up
      (rotateCamera sqW camStart (3/4, 0)).up
      = 1 - (Vec3.dot (normalize3 sqW (newUpVec camStart (3/4, 0)))
               (normalize3 sqW (newCameraVec camStart (3/4, 0)))) ^ 2 ∧
    Vec3.dot (rotateCamera sqW camStart (3/4, 0)).up
      (rotateCamera sqW camStart (3/4, 0)).up ≤ 1 :=
  rotateCamera_orthogonality sqW camStart (3/4, 0)
    (by norm_num [sqW, newCameraVec, camStart, Vec3.dot, Vec3.cross, Vec3.add, Vec3.sub, Vec3.smul])
    (by norm_num [sqW])
    (by norm_num [sqW, newUpVec, camStart, Vec3.dot, Vec3.sub, Vec3.smul])
    (by norm_num [sqW])

/-- C4 counterexample: starting from the exactly orthonormal initial basis
and rotating by the shift `(3/4, 0)`, with both square roots computed
exactly, the resulting up vector has squared length `481/625`, not `1`: the
claim that every `rotate` call leaves both vectors unit length fails. -/
theorem rotateCamera_up_not_unit :
    Vec3.dot camStart.camera camStart.camera = 1 ∧
    Vec3.dot camStart.up camStart.up = 1 ∧
    Vec3.dot camStart.camera camStart.up = 0 ∧
    (sqW (25/16)) ^ 2 = 25/16 ∧ 0 < sqW (25/16) ∧
    Vec3.dot (newCameraVec camStart (3/4, 0)) (newCameraVec camStart (3/4, 0)) = 25/16 ∧
    Vec3.dot (newUpVec camStart (3/4, 0)) (newUpVec camStart (3/4, 0)) = 25/16 ∧
    Vec3.dot (rotateCamera sqW camStart (3/4, 0)).up
      (rotateCamera sqW camStart (3/4, 0)).up = 481/625 ∧
    (481/625 : ℚ) ≠ 1 := by
  refine ⟨by norm_num [camStart, Vec3.dot], by norm_num [camStart, Vec3.dot],
    by norm_num [camStart, Vec3.dot], by norm_num [sqW], by norm_num [sqW], ?_, ?_, ?_,
    by norm_num⟩
  · norm_num [newCameraVec, camStart, Vec3.dot, Vec3.cross, Vec3.add, Vec3.sub, Vec3.smul]
  · norm_num [newUpVec, camStart, Vec3.dot, Vec3.sub, Vec3.smul]
  · norm_num [rotateCamera, sqW, normalize3, newCameraVec, newUpVec, camStart,
      Vec3.dot, Vec3.cross, Vec3.add, Vec3.sub, Vec3.smul]

/-- C5 (amended): for unit `normal` and `from_eye` and any `alpha` with
`alpha^2 ≤ 1` (the configured value is `alpha = 0.3`), the refraction
discriminant `d = 1 - alpha^2 |cross(normal, from_eye)|^2` of line 51 is
nonnegative, so the square root of line 52 is defined. -/
theorem discriminant_nonneg (n f : Vec3) (alpha : ℚ)
    (hn : Vec3.dot n n = 1) (hf : Vec3.dot f f = 1) (ha : alpha ^ 2 ≤ 1) :
    0 ≤ discriminant n f alpha := by
  have hl := lagrange_cross n f
  rw [hn, hf] at hl
  have hcr : Vec3.dot (Vec3.cross n f) (Vec3.cross n f)
      = 1 - (Vec3.dot n f) ^ 2 := by linarith
  unfold discriminant
  rw [hcr]
  nlinarith [sq_nonneg (alpha * Vec3.dot n f), sq_nonneg (Vec3.dot n f)]

theorem discriminant_nonneg_witness :
    0 ≤ discriminant ⟨0, 0, 1⟩ ⟨1, 0, 0⟩ (1/2) :=
  discriminant_nonneg ⟨0, 0, 1⟩ ⟨1, 0, 0⟩ (1/2)
    (by norm_num [Vec3.dot]) (by norm_num [Vec3.dot]) (by norm_num)

/-- C5 counterexample: at `alpha = 2` with orthogonal unit `normal` and
`from_eye` the discriminant is `-3 < 0`, and the value the shader hands to
`sqrt` is the raw `-3`, not the clamped `max d 0 = 0`: no detection or
fallback for `d < 0` exists in the code. -/
theorem discriminant_no_clamp :
    discriminant ⟨0, 0, 1⟩ ⟨1, 0, 0⟩ 2 = -3 ∧
    discriminant ⟨0, 0, 1⟩ ⟨1, 0, 0⟩ 2 < 0 ∧
    c2Of (fun q => q) ⟨0, 0, 1⟩ ⟨1, 0, 0⟩ 2 = -3 ∧
    c2Of (fun q => q) ⟨0, 0, 1⟩ ⟨1, 0, 0⟩ 2 ≠ max (discriminant ⟨0, 0, 1⟩ ⟨1, 0, 0⟩ 2) 0 := by
  norm_num [discriminant, c2Of, Vec3.dot, Vec3.cross]

/-- C6: at normal incidence (`from_eye = -normal` for a unit normal) the
discriminant is `1`, the refraction cosine is `1`, and the
polarization-averaged Fresnel reflectance of lines 67-69 equals the textbook
normal-incidence value `((alpha - 1) / (alpha + 1))^2`. -/
theorem fresnel_normal_incidence (n : Vec3) (alpha c2 : ℚ)
    (hn : Vec3.dot n n = 1)
    (hc2 : c2 ^ 2 = discriminant n (Vec3.neg n) alpha)
    (hc2p : 0 ≤ c2) :
    fresnelReflectance alpha (-Vec3.dot n (Vec3.neg n)) c2
      = ((alpha - 1) / (alpha + 1)) ^ 2 := by
  have hd : discriminant n (Vec3.neg n) alpha = 1 := by
    simp only [discriminant, Vec3.cross, Vec3.neg, Vec3.dot]
    ring
  rw [hd] at hc2
  have h1 : c2 = 1 := by
    have hfac : (c2 - 1) * (c2 + 1) = 0 := by linear_combination hc2
    rcases mul_eq_zero.mp hfac with h | h
    · linarith
    · linarith
  have hcn : -Vec3.dot n (Vec3.neg n) = 1 := by
    simp only [Vec3.neg, Vec3.dot] at *
    linear_combination hn
  rw [h1, hcn]
  unfold fresnelReflectance
  ring

theorem fresnel_normal_incidence_witness :
    fresnelReflectance 3 (-Vec3.dot ⟨0, 0, 1⟩ (Vec3.neg ⟨0, 0, 1⟩)) 1
      = ((3 - 1) / (3 + 1)) ^ 2 :=
  fresnel_normal_incidence ⟨0, 0, 1⟩ 3 1
    (by norm_num [Vec3.dot])
    (by norm_num [discriminant, Vec3.dot, Vec3.cross, Vec3.neg])
    (by norm_num)

/-- C9: the vector `(gradient_x, gradient_y, -1)` that line 31 normalizes
has squared length `gx^2 + gy^2 + 1 ≥ 1`, so (for any gradient, the zero
gradient included) an exact square root `s` of it satisfies `1 ≤ s` and in
particular is a nonzero divisor: the normal computation never divides by
zero. -/
theorem gradientNormalDivisorSafe (g : ℚ × ℚ) (s : ℚ)
    (hs : s ^ 2 = Vec3.dot ⟨g.1, g.2, -1⟩ ⟨g.1, g.2, -1⟩)
    (hsp : 0 ≤ s) :
    1 ≤ Vec3.dot ⟨g.1, g.2, -1⟩ ⟨g.1, g.2, -1⟩ ∧ 1 ≤ s ∧ s ≠ 0 := by
  have hv : Vec3.dot ⟨g.1, g.2, -1⟩ ⟨g.1, g.2, -1⟩ = g.1 ^ 2 + g.2 ^ 2 + 1 := by
    simp only [Vec3.dot]
    ring
  rw [hv] at hs ⊢
  have h1 : 1 ≤ g.1 ^ 2 + g.2 ^ 2 + 1 := by nlinarith [sq_nonneg g.1, sq_nonneg g.2]
  have h2 : 1 ≤ s := by nlinarith
  exact ⟨h1, h2, by linarith⟩

theorem gradientNormalDivisorSafe_witness :
    1 ≤ Vec3.dot ⟨(0:ℚ), 0, -1⟩ ⟨(0:ℚ), 0, -1⟩ ∧ 1 ≤ (1:ℚ) ∧ (1:ℚ) ≠ 0 :=
  gradientNormalDivisorSafe (0, 0) 1 (by norm_num [Vec3.dot]) (by norm_num)

/-- Modelled from the spec: the final-color formula with the diffuse additive
term algebraically removed (the other terms verbatim). -/
def fragmentNoDiffused (sq : ℚ → ℚ) (f : FragIn) : Vec3 :=
  let sky_color := f.u_sky_texture f.v_sky_texcoord
  let bed_color := f.u_bed_texture f.v_bed_texcoord
  let cosphi := max 0 (Vec3.dot f.u_sun_direction (normalize3 sq f.v_reflected))
  let reflected_intensity := f.u_reflected_mult * cosphi ^ 20
  let ambient_water : Vec3 := ⟨0, 3 / 10, 1 / 2⟩
  let image_color :=
    Vec3.add (Vec3.smul f.u_bed_mult (Vec3.hadamard bed_color f.v_mask))
      (Vec3.smul f.u_depth_mult
        (Vec3.hadamard ambient_water ⟨1 - f.v_mask.x, 1 - f.v_mask.y, 1 - f.v_mask.z⟩))
  let rgb :=
    Vec3.add
      (Vec3.add (Vec3.smul (f.u_sky_mult * f.v_reflectance) sky_color)
        (Vec3.smul (1 - f.v_reflectance) image_color))
      (Vec3.smul reflected_intensity f.u_sun_reflected_color)
  if f.bed_upper_water > 1 / 2 then bed_color else rgb

/-- Modelled from the spec: the final-color formula with the specular
(reflected-sun) additive term algebraically removed. -/
def fragmentNoReflectedSun (sq : ℚ → ℚ) (f : FragIn) : Vec3 :=
  let sky_color := f.u_sky_texture f.v_sky_texcoord
  let bed_color := f.u_bed_texture f.v_bed_texcoord
  let normal := normalize3 sq f.v_normal
  let diffused_intensity := f.u_diffused_mult * max 0 (-Vec3.dot normal f.u_sun_direction)
  let ambient_water : Vec3 := ⟨0, 3 / 10, 1 / 2⟩
  let image_color :=
    Vec3.add (Vec3.smul f.u_bed_mult (Vec3.hadamard bed_color f.v_mask))
      (Vec3.smul f.u_depth_mult
        (Vec3.hadamard ambient_water ⟨1 - f.v_mask.x, 1 - f.v_mask.y, 1 - f.v_mask.z⟩))
  let rgb :=
    Vec3.add
      (Vec3.add (Vec3.smul (f.u_sky_mult * f.v_reflectance) sky_color)
        (Vec3.smul (1 - f.v_reflectance) image_color))
      (Vec3.smul diffused_intensity f.u_sun_diffused_color)
  if f.bed_upper_water > 1 / 2 then bed_color else rgb

/-- Modelled from the spec: the final-color formula with the seabed additive
term (inside the subsurface color) algebraically removed. -/
def fragmentNoBed (sq : ℚ → ℚ) (f : FragIn) : Vec3 :=
  let sky_color := f.u_sky_texture f.v_sky_texcoord
  let bed_color := f.u_bed_texture f.v_bed_texcoord
  let normal := normalize3 sq f.v_normal
  let diffused_intensity := f.u_diffused_mult * max 0 (-Vec3.dot normal f.u_sun_direction)
  let cosphi := max 0 (Vec3.dot f.u_sun_direction (normalize3 sq f.v_reflected))
  let reflected_intensity := f.u_reflected_mult * cosphi ^ 20
  let ambient_water : Vec3 := ⟨0, 3 / 10, 1 / 2⟩
  let image_color :=
    Vec3.smul f.u_depth_mult
      (Vec3.hadamard ambient_water ⟨1 - f.v_mask.x, 1 - f.v_mask.y, 1 - f.v_mask.z⟩)
  let rgb :=
    Vec3.add
      (Vec3.add
        (Vec3.add (Vec3.smul (f.u_sky_mult * f.v_reflectance) sky_color)
          (Vec3.smul (1 - f.v_reflectance) image_color))
        (Vec3.smul diffused_intensity f.u_sun_diffused_color))
      (Vec3.smul reflected_intensity f.u_sun_reflected_color)
  if f.bed_upper_water > 1 / 2 then bed_color else rgb

/-- Modelled from the spec: the final-color formula with the ambient-depth
additive term (inside the subsurface color) algebraically removed. -/
def fragmentNoDepth (sq : ℚ → ℚ) (f : FragIn) : Vec3 :=
  let sky_color := f.u_sky_texture f.v_sky_texcoord
  let bed_color := f.u_bed_texture f.v_bed_texcoord
  let normal := normalize3 sq f.v_normal
  let diffused_intensity := f.u_diffused_mult * max 0 (-Vec3.dot normal f.u_sun_direction)
  let cosphi := max 0 (Vec3.dot f.u_sun_direction (normalize3 sq f.v_reflected))
  let reflected_intensity := f.u_reflected_mult * cosphi ^ 20
  let image_color := Vec3.smul f.u_bed_mult (Vec3.hadamard bed_color f.v_mask)
  let rgb :=
    Vec3.add
      (Vec3.add
        (Vec3.add (Vec3.smul (f.u_sky_mult * f.v_reflectance) sky_color)
          (Vec3.smul (1 - f.v_reflectance) image_color))
        (Vec3.smul diffused_intensity f.u_sun_diffused_color))
      (Vec3.smul reflected_intensity f.u_sun_reflected_color)
  if f.bed_upper_water > 1 / 2 then bed_color else rgb

/-- Modelled from the spec: the final-color formula with the sky additive
term algebraically removed. -/
def fragmentNoSky (sq : ℚ → ℚ) (f : FragIn) : Vec3 :=
  let bed_color := f.u_bed_texture f.v_bed_texcoord
  let normal := normalize3 sq f.v_normal
  let diffused_intensity := f.u_diffused_mult * max 0 (-Vec3.dot normal f.u_sun_direction)
  let cosphi := max 0 (Vec3.dot f.u_sun_direction (normalize3 sq f.v_reflected))
  let reflected_intensity := f.u_reflected_mult * cosphi ^ 20
  let ambient_water : Vec3 := ⟨0, 3 / 10, 1 / 2⟩
  let image_color :=
    Vec3.add (Vec3.smul f.u_bed_mult (Vec3.hadamard bed_color f.v_mask))
      (Vec3.smul f.u_depth_mult
        (Vec3.hadamard ambient_water ⟨1 - f.v_mask.x, 1 - f.v_mask.y, 1 - f.v_mask.z⟩))
  let rgb :=
    Vec3.add
      (Vec3.add (Vec3.smul (1 - f.v_reflectance) image_color)
        (Vec3.smul diffused_intensity f.u_sun_diffused_color))
      (Vec3.smul reflected_intensity f.u_sun_reflected_color)
  if f.bed_upper_water > 1 / 2 then bed_color else rgb

/-- C7: setting any single one of the five layer multipliers to exactly `0`
makes the fragment stage produce the full formula with that additive term
algebraically removed, every other term unchanged. -/
theorem layerTogglesZeroTerm (sq : ℚ → ℚ) (f : FragIn) :
    fragmentStage sq { f with u_diffused_mult := 0 } = fragmentNoDiffused sq f ∧
    fragmentStage sq { f with u_reflected_mult := 0 } = fragmentNoReflectedSun sq f ∧
    fragmentStage sq { f with u_bed_mult := 0 } = fragmentNoBed sq f ∧
    fragmentStage sq { f with u_depth_mult := 0 } = fragmentNoDepth sq f ∧
    fragmentStage sq { f with u_sky_mult := 0 } = fragmentNoSky sq f := by
  refine ⟨?_, ?_, ?_, ?_, ?_⟩ <;>
    simp only [fragmentStage, fragmentNoDiffused, fragmentNoReflectedSun, fragmentNoBed,
      fragmentNoDepth, fragmentNoSky] <;>
    split <;>
    simp_all [Vec3.add, Vec3.smul, Vec3.hadamard, Vec3.mk.injEq]

/-- Folding `aggStep` from already-set totals adds the pointwise sums of the
remaining sources and the list length. -/
lemma foldl_aggStep_some (l : List WaveSource) (h0 : ℕ → ℚ) (g0 : ℕ → ℚ × ℚ) (n : ℕ) :
    l.foldl aggStep (some h0, some g0, n)
      = (some fun i => h0 i + (l.map fun sf => sf.heightAndNormal.1 i).sum,
         some fun i =>
           ((g0 i).1 + (l.map fun sf => (sf.heightAndNormal.2 i).1).sum,
            (g0 i).2 + (l.map fun sf => (sf.heightAndNormal.2 i).2).sum),
         n + l.length) := by
  induction l generalizing h0 g0 n with
  | nil => simp
  | cons sf rest ih =>
    rw [List.foldl_cons,
      show aggStep (some h0, some g0, n) sf
        = (some fun i => h0 i + sf.heightAndNormal.1 i,
           some fun i => ((g0 i).1 + (sf.heightAndNormal.2 i).1,
                          (g0 i).2 + (sf.heightAndNormal.2 i).2), n + 1) from rfl,
      ih]
    simp only [List.map_cons, List.sum_cons, List.length_cons, Prod.mk.injEq,
      Option.some.injEq]
    refine ⟨?_, ?_, by omega⟩
    · funext i; ring
    · funext i
      simp only [Prod.mk.injEq]
      constructor <;> ring

/-- On a state whose stored wave-source list is `sf :: rest`, the aggregator
returns the pointwise sums divided by the list length. -/
lemma getHieghtAndNormal_cons (st : CanvasState) (sf : WaveSource)
    (rest : List WaveSource) (hl : st.waveList = sf :: rest) :
    CanvasState.getHieghtAndNormal st
      = (fun i => (sf.heightAndNormal.1 i + (rest.map fun s => s.heightAndNormal.1 i).sum)
            / ((1 + rest.length : ℕ) : ℚ),
         fun i =>
           (((sf.heightAndNormal.2 i).1 + (rest.map fun s => (s.heightAndNormal.2 i).1).sum)
              / ((1 + rest.length : ℕ) : ℚ),
            ((sf.heightAndNormal.2 i).2 + (rest.map fun s => (s.heightAndNormal.2 i).2).sum)
              / ((1 + rest.length : ℕ) : ℚ))) := by
  unfold CanvasState.getHieghtAndNormal
  rw [hl, List.foldl_cons,
    show aggStep (none, none, 0) sf
      = (some sf.heightAndNormal.1, some sf.heightAndNormal.2, 1) from rfl,
    foldl_aggStep_some]
  rfl

/-- The aggregated height and gradient over a nonempty stored list is the sum
over every stored source, divided by the number of stored sources. -/
lemma aggHeightGradSum (st : CanvasState) (i : ℕ) (h : st.waveList ≠ []) :
    (CanvasState.getHieghtAndNormal st).1 i
        = (st.waveList.map fun sf => sf.heightAndNormal.1 i).sum / (st.waveList.length : ℚ) ∧
    ((CanvasState.getHieghtAndNormal st).2 i).1
        = (st.waveList.map fun sf => (sf.heightAndNormal.2 i).1).sum / (st.waveList.length : ℚ) ∧
    ((CanvasState.getHieghtAndNormal st).2 i).2
        = (st.waveList.map fun sf => (sf.heightAndNormal.2 i).2).sum / (st.waveList.length : ℚ) := by
  cases hl : st.waveList with
  | nil => exact absurd hl h
  | cons sf rest =>
    rw [getHieghtAndNormal_cons st sf rest hl]
    simp only [List.map_cons, List.sum_cons, List.length_cons]
    rw [Nat.add_comm 1 rest.length]
    exact ⟨rfl, rfl, rfl⟩

/-- C1 (amended): whenever the stored wave-source list is nonempty, the
aggregated height and gradient at every lattice point are the arithmetic
mean over the stored wave sources alone - the SurfaceField is not part of
the average (and stored dead sources are included). -/
theorem aggregateMeanOverStoredSources (st : CanvasState) (i : ℕ)
    (h : st.waveList ≠ []) :
    (CanvasState.getHieghtAndNormal st).1 i
        = (st.waveList.map fun sf => sf.heightAndNormal.1 i).sum / (st.waveList.length : ℚ) ∧
    ((CanvasState.getHieghtAndNormal st).2 i).1
        = (st.waveList.map fun sf => (sf.heightAndNormal.2 i).1).sum / (st.waveList.length : ℚ) ∧
    ((CanvasState.getHieghtAndNormal st).2 i).2
        = (st.waveList.map fun sf => (sf.heightAndNormal.2 i).2).sum / (st.waveList.length : ℚ) :=
  aggHeightGradSum st i h

/-- A live wave source reporting constant height `1` and gradient `(2, 3)`. -/
def srcLive : WaveSource := ⟨(0, 0), 0, fun _ _ => 1, fun _ _ => (2, 3), fun _ => false⟩

/-- A dead wave source reporting constant height `1`. -/
def srcDead : WaveSource := ⟨(0, 0), 0, fun _ _ => 1, fun _ _ => (0, 0), fun _ => true⟩

/-- A background surface reporting constant height `0`. -/
def surf0 : SurfaceField := ⟨0, fun _ _ => 0, fun _ _ => (0, 0)⟩

/-- A canvas state holding one live wave source over the zero surface. -/
def st1 : CanvasState := ⟨surf0, none, [srcLive], (1000, 1000)⟩

/-- A canvas state holding one dead, unpruned wave source over the zero
surface. -/
def st2 : CanvasState := ⟨surf0, none, [srcDead], (1000, 1000)⟩

theorem aggregateMeanOverStoredSources_witness :
    (CanvasState.getHieghtAndNormal st1).1 0
        = (st1.waveList.map fun sf => sf.heightAndNormal.1 0).sum / (st1.waveList.length : ℚ) ∧
    ((CanvasState.getHieghtAndNormal st1).2 0).1
        = (st1.waveList.map fun sf => (sf.heightAndNormal.2 0).1).sum / (st1.waveList.length : ℚ) ∧
    ((CanvasState.getHieghtAndNormal st1).2 0).2
        = (st1.waveList.map fun sf => (sf.heightAndNormal.2 0).2).sum / (st1.waveList.length : ℚ) :=
  aggregateMeanOverStoredSources st1 0 (by simp [st1])

/-- C1 counterexample: with surface height `0` and one live source of height
`1`, the aggregated height is `1` (the mean over the sources alone), not the
claimed `(h_surface + sum h_i) / (N + 1) = 1/2`. -/
theorem aggregateIgnoresSurfaceField :
    (∀ sf ∈ st1.waveList, sf.is_dead = false) ∧
    st1.surface.heightAndNormal.1 0 = 0 ∧
    (CanvasState.getHieghtAndNormal st1).1 0 = 1 ∧
    (CanvasState.getHieghtAndNormal st1).1 0
      ≠ (st1.surface.heightAndNormal.1 0
          + (st1.waveList.map fun sf => sf.heightAndNormal.1 0).sum)
        / ((st1.waveList.length : ℚ) + 1) := by
  refine ⟨?_, ?_, ?_, ?_⟩
  · simp [st1, srcLive, WaveSource.is_dead]
  · norm_num [st1, surf0, SurfaceField.heightAndNormal]
  · norm_num [CanvasState.getHieghtAndNormal, aggStep, st1, srcLive,
      WaveSource.heightAndNormal]
  · norm_num [CanvasState.getHieghtAndNormal, aggStep, st1, srcLive, surf0,
      WaveSource.heightAndNormal, SurfaceField.heightAndNormal]

/-- C2 (amended): the aggregator returns the SurfaceField's field exactly
when the stored wave-source list is empty (whatever else is in the state). -/
theorem emptyListFallsBackToSurface (st : CanvasState) :
    CanvasState.getHieghtAndNormal { st with waveList := [] }
      = st.surface.heightAndNormal := rfl

/-- C2 counterexample: a state whose only stored source is dead has zero
live sources, yet the aggregated height is the dead source's height `1`,
not the surface's height `0`: the fallback happens only when the stored
list is empty, not when the live-source set is empty. -/
theorem deadSourcesBlockSurfaceFallback :
    (∀ sf ∈ st2.waveList, sf.is_dead = true) ∧
    st2.surface.heightAndNormal.1 0 = 0 ∧
    (CanvasState.getHieghtAndNormal st2).1 0 = 1 ∧
    (CanvasState.getHieghtAndNormal st2).1 0 ≠ st2.surface.heightAndNormal.1 0 := by
  refine ⟨?_, ?_, ?_, ?_⟩
  · simp [st2, srcDead, WaveSource.is_dead]
  · norm_num [st2, surf0, SurfaceField.heightAndNormal]
  · norm_num [CanvasState.getHieghtAndNormal, aggStep, st2, srcDead,
      WaveSource.heightAndNormal]
  · norm_num [CanvasState.getHieghtAndNormal, aggStep, st2, srcDead, surf0,
      WaveSource.heightAndNormal, SurfaceField.heightAndNormal]

/-- C8: `add_wave_center` is a no-op when no wave-source class is
configured; otherwise it first sweeps out every dead source and then appends
exactly one new source at the normalized surface coordinates of the given
screen center. -/
theorem addWaveCenterSpec (st : CanvasState) (c : ℚ × ℚ) :
    (st.surfaceClass = none → st.addWaveCenter c = st) ∧
    (∀ cls, st.surfaceClass = some cls →
      (st.addWaveCenter c).waveList
        = (st.waveList.filter fun sf => !sf.is_dead)
            ++ [cls (3 / 2 * (c.1 - st.physicalSize.1 / 2) / st.physicalSize.1,
                     3 / 2 * (-(c.2 - st.physicalSize.2 / 2) / st.physicalSize.2))]) := by
  constructor
  · intro h
    unfold CanvasState.addWaveCenter
    rw [h]
  · intro cls h
    unfold CanvasState.addWaveCenter
    rw [h]

/-- A concrete wave-source class for the spawn witness. -/
def clsW : ℚ × ℚ → WaveSource :=
  fun p => ⟨p, 0, fun _ _ => 0, fun _ _ => (0, 0), fun _ => false⟩

/-- A canvas state with a configured wave-source class and one dead and one
live stored source. -/
def st3 : CanvasState := ⟨surf0, some clsW, [srcDead, srcLive], (1000, 1000)⟩

theorem addWaveCenterSpec_witness :
    (st3.addWaveCenter (250, 250)).waveList
      = (st3.waveList.filter fun sf => !sf.is_dead)
          ++ [clsW (3 / 2 * ((250:ℚ) - st3.physicalSize.1 / 2) / st3.physicalSize.1,
                    3 / 2 * (-((250:ℚ) - st3.physicalSize.2 / 2) / st3.physicalSize.2))] :=
  (addWaveCenterSpec st3 (250, 250)).2 clsW rfl

/-- C10: a stored wave source that is already dead keeps receiving
`propagate(0.01)` on every timer tick, and keeps being counted in the
aggregated average (which divides by the full stored count): its death
changes nothing until a spawn event prunes the list. -/
theorem deadSourcesTickedAndCounted (st : CanvasState) (sf : WaveSource) (i : ℕ)
    (hmem : sf ∈ st.waveList) (hdead : sf.is_dead = true) :
    WaveSource.propagate sf (1 / 100) ∈ (CanvasState.onTimer st).waveList ∧
    (CanvasState.getHieghtAndNormal st).1 i
      = (st.waveList.map fun s => s.heightAndNormal.1 i).sum / (st.waveList.length : ℚ) := by
  constructor
  · unfold CanvasState.onTimer
    exact List.mem_map_of_mem _ hmem
  · have hne : st.waveList ≠ [] := by
      intro h0
      rw [h0] at hmem
      exact (List.not_mem_nil sf) hmem
    exact (aggHeightGradSum st i hne).1

theorem deadSourcesTickedAndCounted_witness :
    WaveSource.propagate srcDead (1 / 100) ∈ (CanvasState.onTimer st2).waveList ∧
    (CanvasState.getHieghtAndNormal st2).1 0
      = (st2.waveList.map fun s => s.heightAndNormal.1 0).sum / (st2.waveList.length : ℚ) :=
  deadSourcesTickedAndCounted st2 srcDead 0 (by simp [st2])
    (by simp [srcDead, WaveSource.is_dead])

/-- C3 (amended): when the bed plane at `total_depth` lies above the local
water height (equivalently: when the refracted-ray bed intersection point,
whose height is `total_depth`, lies above the water surface), the vertex
stage clamps the bed point to the vertex itself (the bed texture coordinate
becomes the vertex's own xy), marks the vertex bed-above-water, and replaces
the clip position by `(depth_position_view.xy, -position_view.z * z_depth,
z_depth)`: the xy and w components are recomputed from the start position
and the total depth, but the z component still uses the live-height view z.
The fragment stage then outputs the raw seabed sample for such a vertex. -/
theorem dryBedOverride (sq ex sq2 : ℚ → ℚ) (u : Uniforms) (a : VertexIn) (f : FragIn)
    (h : totalDepth u a > a.a_height)
    (hf : f.bed_upper_water = (vertexStage sq ex u a).bed_upper_water) :
    (vertexStage sq ex u a).bed_upper_water = 1 ∧
    (vertexStage sq ex u a).v_bed_texcoord
      = (a.a_position.1 + 1 / 2, a.a_position.2 + 1 / 2) ∧
    (vertexStage sq ex u a).gl_Position
      = ⟨(depthPositionView u a).x, (depthPositionView u a).y,
         -(positionView u a).z * zDepthOf u a, zDepthOf u a⟩ ∧
    fragmentStage sq2 f = f.u_bed_texture f.v_bed_texcoord := by
  have hb : (vertexStage sq ex u a).bed_upper_water = 1 := by
    simp [vertexStage, h]
  refine ⟨hb, ?_, ?_, ?_⟩
  · simp [vertexStage, h]
  · simp [vertexStage, h]
  · have hcond : f.bed_upper_water > 1 / 2 := by
      rw [hf, hb]
      norm_num
    simp only [fragmentStage]
    rw [if_pos hcond]

/-- A trivial square-root oracle for concrete shader runs whose observed
outputs do not depend on the square root. -/
def sq0 : ℚ → ℚ := fun _ => 1

/-- A trivial exponential oracle for concrete shader runs whose observed
outputs do not depend on the exponential. -/
def ex0 : ℚ → ℚ := fun _ => 1

/-- Concrete uniforms: eye height 3, identity view, alpha 0.3, no bed
offset. -/
def u0 : Uniforms := ⟨3, mat4Id, 3 / 10, 0⟩

/-- A vertex at the origin with live height `1` over a bed of depth `-2`
(total depth `2`), so the dry-bed override fires. -/
def a1 : VertexIn := ⟨(0, 0), (0, 0), 1, -2, (0, 0)⟩

/-- The same vertex as `a1` except that the live height is `0`. -/
def a2 : VertexIn := ⟨(0, 0), (0, 0), 0, -2, (0, 0)⟩

/-- A concrete fragment input marked bed-above-water. -/
def f0 : FragIn :=
  ⟨fun _ => ⟨0, 0, 0⟩, fun p => ⟨p.1, p.2, 0⟩, ⟨0, 1, 1 / 10⟩, ⟨1, 4 / 5, 1⟩,
   ⟨1, 4 / 5, 3 / 5⟩, 1, 1 / 2, 1, 1, 1, ⟨0, 0, -1⟩, ⟨0, 0, 0⟩, ⟨0, 0, 1⟩,
   (0, 0), (1 / 2, 1 / 2), 1 / 25, ⟨1, 1, 1⟩, 1⟩

theorem dryBedOverride_witness :
    (vertexStage sq0 ex0 u0 a1).bed_upper_water = 1 ∧
    (vertexStage sq0 ex0 u0 a1).v_bed_texcoord
      = (a1.a_position.1 + 1 / 2, a1.a_position.2 + 1 / 2) ∧
    (vertexStage sq0 ex0 u0 a1).gl_Position
      = ⟨(depthPositionView u0 a1).x, (depthPositionView u0 a1).y,
         -(positionView u0 a1).z * zDepthOf u0 a1, zDepthOf u0 a1⟩ ∧
    fragmentStage sq0 f0 = f0.u_bed_texture f0.v_bed_texcoord :=
  dryBedOverride sq0 ex0 sq0 u0 a1 f0
    (by norm_num [totalDepth, u0, a1])
    (by norm_num [vertexStage, totalDepth, u0, a1, f0])

/-- C3 counterexample: the two dry-bed vertices `a1` and `a2` agree on start
position and total depth and differ only in the live height, yet their clip
positions differ (in the z component), so the overridden clip position is
not recomputed from the start position and the total depth alone instead of
the live height. -/
theorem dryBedClipUsesLiveHeight :
    a1.a_start_position = a2.a_start_position ∧
    totalDepth u0 a1 = totalDepth u0 a2 ∧
    totalDepth u0 a1 > a1.a_height ∧
    totalDepth u0 a2 > a2.a_height ∧
    (vertexStage sq0 ex0 u0 a1).gl_Position
      ≠ (vertexStage sq0 ex0 u0 a2).gl_Position := by
  refine ⟨rfl, by norm_num [totalDepth, u0, a1, a2], by norm_num [totalDepth, u0, a1],
    by norm_num [totalDepth, u0, a2], ?_⟩
  norm_num [vertexStage, totalDepth, positionView, depthPositionView, zDepthOf,
    Mat4.mulVec, Mat4.transpose, Vec4.dot, mat4Id, u0, a1, a2, Vec4.mk.injEq]
